import Mathlib

/-
Shallow embedding of the djinni_build packaging pipeline
(src/djinni_build/*.py). File-system paths are modelled as lists of
components; external side effects (conan invocations, file copies,
shell commands) are recorded as an explicit trace of actions. The
file system is an oracle: the list of paths that exist at the moment
they are consulted. Python exceptions and process exits are modelled
by the PyOutcome type.
-/

namespace DjinniBuild

/-- A file-system path, as its list of components (pathlib.Path). -/
abbrev Path := List String

/-- Rendering of a path as the string used in shell commands. -/
def pathStr (p : Path) : String := String.intercalate "/" p

/-- File-system oracle: the paths that exist when consulted. -/
abbrev FS := List Path

/-- Enum Architecture from src/djinni_build/argparse_enums.py. -/
inductive Architecture where
  | x86_64
  | x86
  | armv8
  | armv7
deriving DecidableEq, Repr

/-- ArchitectureDetails namedtuple: per-platform names of an architecture. -/
structure ArchitectureDetails where
  conan : String
  android : String
  windows : String
  bit : String
deriving DecidableEq, Repr

/-- The value carried by each Architecture member (argparse_enums.py lines 30-33). -/
def Architecture.value : Architecture → ArchitectureDetails
  | .x86_64 => ⟨"x86_64", "x86_64", "win10-x64", "64"⟩
  | .x86 => ⟨"x86", "x86", "win10-x86", "32"⟩
  | .armv8 => ⟨"armv8", "arm64-v8a", "win10-arm64", "64"⟩
  | .armv7 => ⟨"armv7", "armeabi-v7a", "win10-arm", "32"⟩

/-- The enum member name (python `.name`, also `__str__` of ArgparseEnum). -/
def Architecture.archName : Architecture → String
  | .x86_64 => "x86_64"
  | .x86 => "x86"
  | .armv8 => "armv8"
  | .armv7 => "armv7"

/-- ArgparseEnum.from_string for Architecture: case-sensitive name lookup
(`cls[string]`), raising ValueError on a KeyError. -/
def Architecture.from_string (s : String) : Except String Architecture :=
  if s = "x86_64" then .ok .x86_64
  else if s = "x86" then .ok .x86
  else if s = "armv8" then .ok .armv8
  else if s = "armv7" then .ok .armv7
  else .error "ValueError"

/-- Enum BuildConfiguration from src/djinni_build/argparse_enums.py. -/
inductive BuildConfiguration where
  | release
  | debug
deriving DecidableEq, Repr

/-- The value carried by each BuildConfiguration member. -/
def BuildConfiguration.value : BuildConfiguration → String
  | .release => "Release"
  | .debug => "Debug"

/-- The enum member name (python `.name`). -/
def BuildConfiguration.confName : BuildConfiguration → String
  | .release => "release"
  | .debug => "debug"

/-- ArgparseEnum.from_string for BuildConfiguration. -/
def BuildConfiguration.from_string (s : String) : Except String BuildConfiguration :=
  if s = "release" then .ok .release
  else if s = "debug" then .ok .debug
  else .error "ValueError"

/-- One recorded external side effect of the pipeline. -/
inductive Action where
  | conanBuild (buildFolder : Path)
  | conanInstall (installFolder : Path) (hostProfile : String) (buildProfile : String)
      (settings : List String) (env : List String)
  | copyFile (src : Path) (dst : Path)
  | copyDir (src : Path) (dst : Path)
  | cleanDir (dir : Path)
  | execute (cmd : String) (args : List String)
  | system (cmd : String)
  | writeNuspec (dst : Path) (lines : List String)
deriving DecidableEq, Repr

/-- Outcome of running one python method: normal return, process exit
(`exit(n)`), a FileNotFoundError raised by shutil.copy, or an IndexError
raised by indexing an empty list. -/
inductive PyOutcome where
  | ok
  | exited (code : Nat)
  | fileNotFound (path : Path)
  | indexError
deriving DecidableEq, Repr

/-- State of a BuildContext object (src/djinni_build/build_context.py). -/
structure BuildContext where
  workingDirectory : Path
  buildDirectory : Path
  hostProfile : String
  buildProfile : String
  architectures : List Architecture
  configuration : BuildConfiguration
  conanUser : String
  conanChannel : String
  env : List String
  settings : List String
  version : String
deriving DecidableEq, Repr

/-- BuildContext.__init__ (build_context.py lines 12-35): prepends the fixed
test-disabling env entry and the configuration build-type setting; the version
is read from the project metadata (conan.inspect), here an oracle argument. -/
def mkBuildContext (workingDirectory buildDirectory : Path)
    (hostProfile buildProfile : String) (architectures : List Architecture)
    (configuration : BuildConfiguration) (conanUser conanChannel : String)
    (env settings : List String) (inspectVersion : String) : BuildContext :=
  ⟨workingDirectory, buildDirectory, hostProfile, buildProfile, architectures,
    configuration, conanUser, conanChannel,
    "CONAN_RUN_TESTS=False" :: env,
    ("build_type=" ++ configuration.value) :: settings,
    inspectVersion⟩

/-- The for-loop of BuildContext.build: one conan build per architecture,
in list order, into the per-architecture subdirectory. -/
def buildLoop (buildDirectory : Path) : List Architecture → List Action
  | [] => []
  | a :: rest => Action.conanBuild (buildDirectory ++ [a.archName]) :: buildLoop buildDirectory rest

/-- BuildContext.build (build_context.py lines 37-42). -/
def BuildContext.build (ctx : BuildContext) : List Action :=
  buildLoop ctx.buildDirectory ctx.architectures

/-- BuildContext.conan_install (build_context.py lines 44-55): a single
invocation of the dependency manager's install step; its result (an oracle
argument) is returned to the caller unchanged. -/
def BuildContext.conan_install (ctx : BuildContext) (architecture : Architecture)
    (settings env : List String) (toolResult : Except String Unit) :
    Except String Unit × List Action :=
  (toolResult,
    [Action.conanInstall (ctx.buildDirectory ++ [architecture.archName])
      ctx.hostProfile ctx.buildProfile
      (settings ++ ctx.settings ++ ["arch=" ++ architecture.value.conan])
      (env ++ ctx.env)])

/-- State of a DarwinBuildContext (src/djinni_build/darwin_build_context.py).
Its __init__ passes `build_directory / sdk` to the base class, so the
buildDirectory field already ends in the sdk component. -/
structure DarwinBuildContext extends BuildContext where
  sdk : String
  darwinTarget : String
  darwinTargetDir : Path
deriving DecidableEq, Repr

/-- DarwinBuildContext.target_folder (darwin_build_context.py lines 41-48). -/
def targetFolderOf (sdk : String) (configuration : BuildConfiguration) : String :=
  if sdk = "iphoneos" ∨ sdk = "iphonesimulator" then
    configuration.value ++ "-" ++ sdk
  else configuration.value

/-- Property target_folder on the context. -/
def DarwinBuildContext.target_folder (ctx : DarwinBuildContext) : String :=
  targetFolderOf ctx.sdk ctx.configuration

/-- DarwinBuildContext.combined_architecture: the architecture names joined
with underscores (darwin_build_context.py lines 50-55). -/
def combinedArchitectureOf (architectures : List Architecture) : String :=
  String.intercalate "_" (architectures.map Architecture.archName)

/-- Property combined_architecture on the context. -/
def DarwinBuildContext.combined_architecture (ctx : DarwinBuildContext) : String :=
  combinedArchitectureOf ctx.architectures

/-- The lipo working directory `build_directory / combined_architecture`. -/
def DarwinBuildContext.lipoDir (ctx : DarwinBuildContext) : Path :=
  ctx.buildDirectory ++ [ctx.combined_architecture]

/-- Source framework bundle of the reference architecture a0
(`build_directory / architectures[0].value.conan / target_dir / target_folder
/ target.framework`, darwin_build_context.py line 69). -/
def DarwinBuildContext.framework_src (ctx : DarwinBuildContext) (a0 : Architecture) : Path :=
  ctx.buildDirectory ++ [a0.value.conan] ++ ctx.darwinTargetDir ++
    [ctx.target_folder, ctx.darwinTarget ++ ".framework"]

/-- Destination of the copied framework bundle inside the lipo directory. -/
def DarwinBuildContext.framework_dst (ctx : DarwinBuildContext) : Path :=
  ctx.lipoDir ++ ctx.darwinTargetDir ++
    [ctx.target_folder, ctx.darwinTarget ++ ".framework"]

/-- lipo output path (darwin_build_context.py lines 72-75): SDK-conditional,
under `Versions/A` for the macosx sdk, at the bundle top level otherwise. -/
def DarwinBuildContext.lipo_output (ctx : DarwinBuildContext) : Path :=
  if ctx.sdk = "macosx" then
    ctx.framework_dst ++ ["Versions", "A", ctx.darwinTarget]
  else
    ctx.framework_dst ++ [ctx.darwinTarget]

/-- lipo input path of one architecture (darwin_build_context.py lines 76-80):
same SDK-conditional rule, under the per-architecture build folder. -/
def DarwinBuildContext.lipo_input_path (ctx : DarwinBuildContext) (a : Architecture) : Path :=
  let bundle := ctx.buildDirectory ++ [a.archName] ++ ctx.darwinTargetDir ++
    [ctx.target_folder, ctx.darwinTarget ++ ".framework"]
  if ctx.sdk = "macosx" then bundle ++ ["Versions", "A", ctx.darwinTarget]
  else bundle ++ [ctx.darwinTarget]

/-- DarwinBuildContext._lipo_combine (darwin_build_context.py lines 66-81):
copy the reference architecture's framework into the lipo directory, then run
lipo with one input per architecture and a single output. (Unreachable for an
empty architecture list: build() guards with len > 1.) -/
def DarwinBuildContext.lipo_combine (ctx : DarwinBuildContext) : List Action :=
  match ctx.architectures with
  | [] => []
  | a0 :: _ =>
    [Action.copyDir (ctx.framework_src a0) ctx.framework_dst,
     Action.execute "lipo"
       ((ctx.architectures.map fun a => pathStr (ctx.lipo_input_path a)) ++
        ["-create", "-output " ++ pathStr ctx.lipo_output])]

/-- dSYM bundle of the reference architecture (darwin_build_context.py line 85). -/
def DarwinBuildContext.dsym_src (ctx : DarwinBuildContext) (a0 : Architecture) : Path :=
  ctx.buildDirectory ++ [a0.value.conan] ++ ctx.darwinTargetDir ++
    [ctx.target_folder, ctx.darwinTarget ++ ".framework.dSYM"]

/-- Destination of the copied dSYM bundle inside the lipo directory. -/
def DarwinBuildContext.dsym_dst (ctx : DarwinBuildContext) : Path :=
  ctx.lipoDir ++ ctx.darwinTargetDir ++
    [ctx.target_folder, ctx.darwinTarget ++ ".framework.dSYM"]

/-- lipo output path for the dSYM DWARF binary (darwin_build_context.py line
93): always `Contents/Resources/DWARF/<target>` inside the dSYM bundle. -/
def DarwinBuildContext.dsym_lipo_output (ctx : DarwinBuildContext) : Path :=
  ctx.dsym_dst ++ ["Contents", "Resources", "DWARF", ctx.darwinTarget]

/-- lipo input path of one architecture's DWARF binary (line 96). -/
def DarwinBuildContext.dsym_lipo_input_path (ctx : DarwinBuildContext) (a : Architecture) : Path :=
  ctx.buildDirectory ++ [a.archName] ++ ctx.darwinTargetDir ++
    [ctx.target_folder, ctx.darwinTarget ++ ".framework.dSYM",
     "Contents", "Resources", "DWARF", ctx.darwinTarget]

/-- DarwinBuildContext._lipo_combine_dsym (darwin_build_context.py lines
83-97): only acts when the reference architecture's dSYM bundle exists. -/
def DarwinBuildContext.lipo_combine_dsym (ctx : DarwinBuildContext) (fs : FS) : List Action :=
  match ctx.architectures with
  | [] => []
  | a0 :: _ =>
    if ctx.dsym_src a0 ∈ fs then
      [Action.copyDir (ctx.dsym_src a0) ctx.dsym_dst,
       Action.execute "lipo"
         ((ctx.architectures.map fun a => pathStr (ctx.dsym_lipo_input_path a)) ++
          ["-create", "-output " ++ pathStr ctx.dsym_lipo_output])]
    else []

/-- DarwinBuildContext.build (darwin_build_context.py lines 57-64): the base
per-architecture builds, then — only with more than one architecture — the
universal-binary merge and the dSYM merge. -/
def DarwinBuildContext.build (ctx : DarwinBuildContext) (fs : FS) : List Action :=
  ctx.toBuildContext.build ++
    (if 1 < ctx.architectures.length then
      ctx.lipo_combine ++ ctx.lipo_combine_dsym fs
    else [])

/-- One structured xcodebuild argument, as assembled by
DarwinBuildContext._create_xcframework. -/
inductive XcArg where
  | createXcframework
  | output (p : Path)
  | framework (p : Path)
  | debugSymbols (p : Path)
deriving DecidableEq, Repr

/-- Rendering of an XcArg as the argument string the source builds. -/
def XcArg.render : XcArg → String
  | .createXcframework => "-create-xcframework"
  | .output p => "-output " ++ pathStr p
  | .framework p => "-framework " ++ pathStr p
  | .debugSymbols p => "-debug-symbols " ++ pathStr p

/-- Whether the argument is a `-framework <path>` argument. -/
def XcArg.isFramework : XcArg → Bool
  | .framework _ => true
  | _ => false

/-- Whether the argument is a `-debug-symbols <path>` argument. -/
def XcArg.isDebugSymbols : XcArg → Bool
  | .debugSymbols _ => true
  | _ => false

/-- The slice of a BuildContext that _create_xcframework consumes. The
orchestrator hands it the three Darwin contexts whose architectures field may
be None (absent CLI flag), hence the Option. -/
structure XcEntry where
  architectures : Option (List Architecture)
  buildDirectory : Path
  sdk : String
  configuration : BuildConfiguration
deriving DecidableEq, Repr

/-- Base path `build_directory / combined_architecture / target_dir /
target_folder` of one entry's combined output. -/
def XcEntry.framework_base (e : XcEntry) (archs : List Architecture) (targetDir : Path) : Path :=
  e.buildDirectory ++ [combinedArchitectureOf archs] ++ targetDir ++
    [targetFolderOf e.sdk e.configuration]

/-- Whether the entry's combined output contains a dSYM bundle. -/
def XcEntry.hasDsym (e : XcEntry) (target : String) (targetDir : Path) (fs : FS) : Bool :=
  match e.architectures with
  | none => false
  | some archs =>
    if e.framework_base archs targetDir ++ [target ++ ".framework.dSYM"] ∈ fs then true else false

/-- Arguments contributed by one build context in the loop of
_create_xcframework (darwin_build_context.py lines 110-118): skipped only
when architectures is None; one `-framework` argument otherwise, plus a
`-debug-symbols` argument when the dSYM bundle exists. -/
def xcframeworkArgsFor (target : String) (targetDir : Path) (fs : FS) (e : XcEntry) : List XcArg :=
  match e.architectures with
  | none => []
  | some archs =>
    let base := e.framework_base archs targetDir
    XcArg.framework (base ++ [target ++ ".framework"]) ::
      (if base ++ [target ++ ".framework.dSYM"] ∈ fs then
        [XcArg.debugSymbols (base ++ [target ++ ".framework.dSYM"])]
      else [])

/-- The output directory of the xcframework
(`build_directory/darwin/package/<target>.xcframework`). -/
def xcframeworkOutputDir (buildDirectory : Path) (target : String) : Path :=
  buildDirectory ++ ["darwin", "package", target ++ ".xcframework"]

/-- The full xcodebuild argument list of _create_xcframework. -/
def xcframeworkArguments (ctxs : List XcEntry) (target : String) (targetDir : Path)
    (buildDirectory : Path) (fs : FS) : List XcArg :=
  XcArg.createXcframework :: XcArg.output (xcframeworkOutputDir buildDirectory target) ::
    List.flatten (ctxs.map (xcframeworkArgsFor target targetDir fs))

/-- DarwinBuildContext._create_xcframework (darwin_build_context.py lines
105-120): assemble the argument list, recursively remove the output path,
then invoke xcodebuild once. -/
def create_xcframework (ctxs : List XcEntry) (target : String) (targetDir : Path)
    (buildDirectory : Path) (fs : FS) : List Action :=
  [Action.cleanDir (xcframeworkOutputDir buildDirectory target),
   Action.execute "xcodebuild"
     ((xcframeworkArguments ctxs target targetDir buildDirectory fs).map XcArg.render)]

/-- State of an AndroidBuildContext (src/djinni_build/android_build_context.py). -/
structure AndroidBuildContext extends BuildContext where
  androidProjectDir : Path
  androidModuleName : String
  androidTarget : String
  androidTargetDir : Path
deriving DecidableEq, Repr

/-- Source of one architecture's compiled shared library. -/
def AndroidBuildContext.lib_src (ctx : AndroidBuildContext) (a : Architecture) : Path :=
  ctx.buildDirectory ++ [a.archName] ++ ctx.androidTargetDir ++
    ["lib" ++ ctx.androidTarget ++ ".so"]

/-- Destination of one architecture's shared library inside the Android
project, keyed by the Android ABI name. -/
def AndroidBuildContext.lib_dst (ctx : AndroidBuildContext) (a : Architecture) : Path :=
  ctx.androidProjectDir ++ [ctx.androidModuleName, "src", "main", "jniLibs",
    a.value.android, "lib" ++ ctx.androidTarget ++ ".so"]

/-- The per-architecture _lib_copy loop of AndroidBuildContext.package.
shutil.copy raises FileNotFoundError when the source is missing; the first
failing source aborts the loop. Returns the failing source (if any) and the
actions performed up to that point. -/
def androidLibCopyLoop (ctx : AndroidBuildContext) (fs : FS) :
    List Architecture → Option Path × List Action
  | [] => (none, [])
  | a :: rest =>
    if ctx.lib_src a ∈ fs then
      let r := androidLibCopyLoop ctx fs rest
      (r.1, Action.copyFile (ctx.lib_src a) (ctx.lib_dst a) :: r.2)
    else (some (ctx.lib_src a), [])

/-- Source of the reference architecture's jar. -/
def AndroidBuildContext.jar_src (ctx : AndroidBuildContext) (a0 : Architecture) : Path :=
  ctx.buildDirectory ++ [a0.archName] ++ ctx.androidTargetDir ++
    [ctx.androidTarget ++ ".jar"]

/-- The archive the Gradle build is expected to write. -/
def AndroidBuildContext.aar_src (ctx : AndroidBuildContext) : Path :=
  ctx.androidProjectDir ++ [ctx.androidModuleName, "build", "outputs", "aar",
    ctx.androidModuleName ++ "-" ++ ctx.configuration.confName ++ ".aar"]

/-- AndroidBuildContext.package (android_build_context.py lines 44-63): copy
each architecture's shared library, copy the reference architecture's jar,
run `./gradlew assemble<Configuration>` (exit status an oracle argument;
non-zero exits the process with status 2), then copy the produced archive to
the build directory (FileNotFoundError when Gradle wrote none). -/
def AndroidBuildContext.package (ctx : AndroidBuildContext) (fs : FS)
    (gradleRet : Nat) : PyOutcome × List Action :=
  match androidLibCopyLoop ctx fs ctx.architectures with
  | (some p, tr) => (.fileNotFound p, tr)
  | (none, tr) =>
    match ctx.architectures with
    | [] => (.indexError, tr)
    | a0 :: _ =>
      if ctx.jar_src a0 ∈ fs then
        let jarDst := ctx.androidProjectDir ++ [ctx.androidModuleName, "libs",
          ctx.androidTarget ++ ".jar"]
        let tr2 := tr ++ [Action.copyFile (ctx.jar_src a0) jarDst,
          Action.system ("./gradlew assemble" ++ ctx.configuration.value)]
        if gradleRet ≠ 0 then (.exited 2, tr2)
        else if ctx.aar_src ∈ fs then
          (.ok, tr2 ++ [Action.copyFile ctx.aar_src
            (ctx.buildDirectory ++ [ctx.androidModuleName ++ ".aar"])])
        else (.fileNotFound ctx.aar_src, tr2)
      else (.fileNotFound (ctx.jar_src a0), tr)

/-- State of a WindowsBuildContext (src/djinni_build/windows_build_context.py).
The target-framework-moniker nupkgNetVersion is a constructor parameter. -/
structure WindowsBuildContext extends BuildContext where
  nupkgDir : Path
  nupkgNetVersion : String
  nupkgName : String
  windowsTarget : String
  windowsTargetDir : Path
deriving DecidableEq, Repr

/-- Source of one architecture's compiled target dll
(`build_directory/arch.name/target_dir/configuration.value/<target>.dll`). -/
def WindowsBuildContext.dll_src (ctx : WindowsBuildContext) (a : Architecture) : Path :=
  ctx.buildDirectory ++ [a.archName] ++ ctx.windowsTargetDir ++
    [ctx.configuration.value, ctx.windowsTarget ++ ".dll"]

/-- Source of one architecture's Ijwhost.dll. -/
def WindowsBuildContext.ijwhost_src (ctx : WindowsBuildContext) (a : Architecture) : Path :=
  ctx.buildDirectory ++ [a.archName] ++ ctx.windowsTargetDir ++
    [ctx.configuration.value, "Ijwhost.dll"]

/-- The runtime-identifier-keyed destination directory
`nupkg_dir/runtimes/<rid>/lib/<nupkg_net_version>` of one architecture. -/
def WindowsBuildContext.runtime_dest (ctx : WindowsBuildContext) (a : Architecture) : Path :=
  ctx.nupkgDir ++ ["runtimes", a.value.windows, "lib", ctx.nupkgNetVersion]

/-- The per-architecture loop of WindowsBuildContext.package (lines 54-60):
copy the target dll and the Ijwhost.dll into the runtime-identifier subtree.
shutil.copy raises FileNotFoundError on a missing source. -/
def windowsCopyLoop (ctx : WindowsBuildContext) (fs : FS) :
    List Architecture → Option Path × List Action
  | [] => (none, [])
  | a :: rest =>
    if ctx.dll_src a ∈ fs then
      if ctx.ijwhost_src a ∈ fs then
        let r := windowsCopyLoop ctx fs rest
        (r.1,
          Action.copyFile (ctx.dll_src a) (ctx.runtime_dest a ++ [ctx.windowsTarget ++ ".dll"]) ::
          Action.copyFile (ctx.ijwhost_src a) (ctx.runtime_dest a ++ ["Ijwhost.dll"]) :: r.2)
      else (some (ctx.ijwhost_src a),
        [Action.copyFile (ctx.dll_src a) (ctx.runtime_dest a ++ [ctx.windowsTarget ++ ".dll"])])
    else (some (ctx.dll_src a), [])

/-- Left-to-right non-overlapping substring replacement on character lists
(the semantics of python str.replace for a non-empty pattern), with explicit
fuel for structural termination. -/
def replaceLoop (pat rep : List Char) : Nat → List Char → List Char
  | 0, l => l
  | _ + 1, [] => []
  | fuel + 1, c :: rest =>
    if pat.isPrefixOf (c :: rest) && !pat.isEmpty then
      rep ++ replaceLoop pat rep fuel ((c :: rest).drop pat.length)
    else c :: replaceLoop pat rep fuel rest

/-- python str.replace (for the non-empty pattern used by configure_nuspec). -/
def pyReplace (s pat rep : String) : String :=
  String.mk (replaceLoop pat.data rep.data s.data.length s.data)

/-- WindowsBuildContext.configure_nuspec (lines 75-80) as the pure line
transformation it performs on the template: it only replaces the literal
version placeholder, it does not parse the template. -/
def configure_nuspec_lines (version : String) (templateLines : List String) : List String :=
  templateLines.map fun line => pyReplace line "\x7bversion\x7d" version

/-- WindowsBuildContext.package (windows_build_context.py lines 47-67):
reference-architecture dll into `lib/<nupkg_net_version>`, per-architecture
dlls into the runtimes subtree, nuspec template substitution, one plain
`nuget pack` invocation, then the versioned nupkg copied out. The template
content is an input (the lines of `<nupkg_name>.nuspec.template`). -/
def WindowsBuildContext.package (ctx : WindowsBuildContext) (fs : FS)
    (templateLines : List String) : PyOutcome × List Action :=
  match ctx.architectures with
  | [] => (.indexError, [])
  | a0 :: _ =>
    if ctx.dll_src a0 ∈ fs then
      let act0 := Action.copyFile (ctx.dll_src a0)
        (ctx.nupkgDir ++ ["lib", ctx.nupkgNetVersion, ctx.windowsTarget ++ ".dll"])
      match windowsCopyLoop ctx fs ctx.architectures with
      | (some p, tr) => (.fileNotFound p, act0 :: tr)
      | (none, tr) =>
        let nupkgFile := ctx.nupkgName ++ "." ++ ctx.version ++ ".nupkg"
        let tr2 := act0 :: tr ++
          [Action.writeNuspec (ctx.nupkgDir ++ [ctx.nupkgName ++ ".nuspec"])
            (configure_nuspec_lines ctx.version templateLines),
           Action.system ("nuget pack " ++ ctx.nupkgName ++ ".nuspec")]
        if ctx.nupkgDir ++ [nupkgFile] ∈ fs then
          (.ok, tr2 ++ [Action.copyFile (ctx.nupkgDir ++ [nupkgFile])
            (ctx.buildDirectory ++ [nupkgFile])])
        else (.fileNotFound (ctx.nupkgDir ++ [nupkgFile]), tr2)
    else (.fileNotFound (ctx.dll_src a0), [])

/-- Whether an action is a shell-command invocation (an external tool run
through os.system). -/
def isSystemAction : Action → Bool
  | .system _ => true
  | _ => false

/-- Whether an action is a directory copy. -/
def isCopyDir : Action → Bool
  | .copyDir _ _ => true
  | _ => false

/-- Whether an action is an `execute` invocation mentioning the given
argument string. -/
def mentionsArg (s : String) : Action → Bool
  | .execute _ args => args.contains s
  | _ => false

lemma buildLoop_eq_map (d : Path) (l : List Architecture) :
    buildLoop d l = l.map fun a => Action.conanBuild (d ++ [a.archName]) := by
  induction l with
  | nil => rfl
  | cons a rest ih => simp [buildLoop, ih]

lemma mem_buildLoop (d : Path) (l : List Architecture) (x : Action) (hx : x ∈ buildLoop d l) :
    ∃ a ∈ l, x = Action.conanBuild (d ++ [a.archName]) := by
  rw [buildLoop_eq_map] at hx
  simp only [List.mem_map] at hx
  obtain ⟨a, ha, rfl⟩ := hx
  exact ⟨a, ha, rfl⟩

/-- C4: for every build context with architecture list [a1, ..., an],
build() invokes the dependency manager's build step exactly n times, once per
architecture in list order, each targeting the subdirectory of the build
directory named after that architecture's canonical name; an empty
architecture list performs zero invocations. -/
theorem claim_c4_build_per_architecture (ctx : BuildContext) :
    (BuildContext.build ctx).length = ctx.architectures.length ∧
    BuildContext.build ctx =
      ctx.architectures.map (fun a => Action.conanBuild (ctx.buildDirectory ++ [a.archName])) ∧
    (ctx.architectures = [] → BuildContext.build ctx = []) := by
  refine ⟨?_, ?_, ?_⟩
  · rw [BuildContext.build, buildLoop_eq_map, List.length_map]
  · rw [BuildContext.build, buildLoop_eq_map]
  · intro h
    rw [BuildContext.build, h]
    rfl

/-- Witness for C4 at a concrete context with an empty architecture list:
build() performs zero invocations. -/
theorem claim_c4_witness :
    BuildContext.build (mkBuildContext ["w"] ["b"] "host" "default" [] .release "_" "_" [] [] "1.0.0") = [] :=
  (claim_c4_build_per_architecture
    (mkBuildContext ["w"] ["b"] "host" "default" [] .release "_" "_" [] [] "1.0.0")).2.2 rfl

/-- C8: every registered architecture or configuration name round-trips
through the registry (name to enum value back to the same name, lookup being
a case-sensitive exact match), and every unregistered string makes the lookup
fail with the invalid-argument (ValueError) outcome instead of a value. -/
theorem claim_c8_registry_roundtrip :
    (∀ a : Architecture, Architecture.from_string a.archName = Except.ok a) ∧
    (∀ c : BuildConfiguration, BuildConfiguration.from_string c.confName = Except.ok c) ∧
    (∀ s : String, (∀ a : Architecture, s ≠ a.archName) →
      Architecture.from_string s = Except.error "ValueError") ∧
    (∀ s : String, (∀ c : BuildConfiguration, s ≠ c.confName) →
      BuildConfiguration.from_string s = Except.error "ValueError") := by
  refine ⟨?_, ?_, ?_, ?_⟩
  · intro a; cases a <;> rfl
  · intro c; cases c <;> rfl
  · intro s h
    have h1 : s ≠ "x86_64" := h .x86_64
    have h2 : s ≠ "x86" := h .x86
    have h3 : s ≠ "armv8" := h .armv8
    have h4 : s ≠ "armv7" := h .armv7
    rw [Architecture.from_string, if_neg h1, if_neg h2, if_neg h3, if_neg h4]
  · intro s h
    have h1 : s ≠ "release" := h .release
    have h2 : s ≠ "debug" := h .debug
    rw [BuildConfiguration.from_string, if_neg h1, if_neg h2]

/-- Witness for C8: the round-trip at a concrete registered name, and the
failing lookup at concrete unregistered names (a wrong name, and a
wrong-case variant of a registered name). -/
theorem claim_c8_witness :
    Architecture.from_string "armv8" = Except.ok Architecture.armv8 ∧
    Architecture.from_string "mips" = Except.error "ValueError" ∧
    BuildConfiguration.from_string "Release" = Except.error "ValueError" :=
  ⟨claim_c8_registry_roundtrip.1 .armv8,
   claim_c8_registry_roundtrip.2.2.1 "mips" (by intro a; cases a <;> decide),
   claim_c8_registry_roundtrip.2.2.2 "Release" (by intro c; cases c <;> decide)⟩

/-- C9: install invokes the dependency manager's install step exactly once,
with a deterministic settings merge containing the configuration's build-type
setting, every caller-supplied setting and the architecture setting, and an
environment containing the fixed test-disabling entry and every
caller-supplied entry; the underlying tool's result is returned unchanged
(failures propagate, no retry). -/
theorem claim_c9_conan_install_merge
    (workingDirectory buildDirectory : Path) (hostProfile buildProfile : String)
    (architectures : List Architecture) (configuration : BuildConfiguration)
    (conanUser conanChannel : String) (ctorEnv ctorSettings : List String)
    (version : String) (architecture : Architecture)
    (settings env : List String) (toolResult : Except String Unit) :
    (BuildContext.conan_install
      (mkBuildContext workingDirectory buildDirectory hostProfile buildProfile
        architectures configuration conanUser conanChannel ctorEnv ctorSettings version)
      architecture settings env toolResult).1 = toolResult ∧
    (BuildContext.conan_install
      (mkBuildContext workingDirectory buildDirectory hostProfile buildProfile
        architectures configuration conanUser conanChannel ctorEnv ctorSettings version)
      architecture settings env toolResult).2.length = 1 ∧
    (∀ fld hp bp S E, Action.conanInstall fld hp bp S E ∈
      (BuildContext.conan_install
        (mkBuildContext workingDirectory buildDirectory hostProfile buildProfile
          architectures configuration conanUser conanChannel ctorEnv ctorSettings version)
        architecture settings env toolResult).2 →
      fld = buildDirectory ++ [architecture.archName] ∧
      ("build_type=" ++ configuration.value) ∈ S ∧
      (∀ s ∈ settings, s ∈ S) ∧
      ("arch=" ++ architecture.value.conan) ∈ S ∧
      "CONAN_RUN_TESTS=False" ∈ E ∧
      (∀ e ∈ env, e ∈ E)) := by
  refine ⟨rfl, rfl, ?_⟩
  intro fld hp bp S E hmem
  simp only [BuildContext.conan_install, List.mem_singleton] at hmem
  injection hmem with h1 h2 h3 h4 h5
  subst h1
  subst h4
  subst h5
  refine ⟨rfl, ?_, ?_, ?_, ?_, ?_⟩
  · simp [mkBuildContext]
  · intro s hs; simp [hs]
  · simp
  · simp [mkBuildContext]
  · intro e he; simp [he]

/-- Witness for C9 at concrete inputs: the fully evaluated invocation record
of a single install call, with the build-type, caller and architecture
settings and the test-disabling plus caller environment present. -/
theorem claim_c9_witness :
    (["b", "armv8"] : Path) = ["b"] ++ [Architecture.armv8.archName] ∧
    "build_type=Release" ∈ ["os.sdk=macosx", "build_type=Release", "ctorS", "arch=armv8"] ∧
    (∀ s ∈ ["os.sdk=macosx"], s ∈ ["os.sdk=macosx", "build_type=Release", "ctorS", "arch=armv8"]) ∧
    "arch=armv8" ∈ ["os.sdk=macosx", "build_type=Release", "ctorS", "arch=armv8"] ∧
    "CONAN_RUN_TESTS=False" ∈ ["callerE", "CONAN_RUN_TESTS=False", "ctorE"] ∧
    (∀ e ∈ ["callerE"], e ∈ ["callerE", "CONAN_RUN_TESTS=False", "ctorE"]) :=
  (claim_c9_conan_install_merge ["w"] ["b"] "host" "default" [.armv8] .release "_" "_"
    ["ctorE"] ["ctorS"] "1.0.0" .armv8 ["os.sdk=macosx"] ["callerE"] (.ok ()) ).2.2
    ["b", "armv8"] "host" "default"
    ["os.sdk=macosx", "build_type=Release", "ctorS", "arch=armv8"]
    ["callerE", "CONAN_RUN_TESTS=False", "ctorE"] (by decide)

/-- C10: package() on an Android or Windows context with an empty
architecture list fails with the IndexError from the reference-architecture
(first-element) access, with an empty action trace: no external tool and no
copy happens before the failure. -/
theorem claim_c10_empty_architectures_index_error
    (actx : AndroidBuildContext) (wctx : WindowsBuildContext) (fs : FS)
    (gradleRet : Nat) (templateLines : List String)
    (ha : actx.architectures = []) (hw : wctx.architectures = []) :
    AndroidBuildContext.package actx fs gradleRet = (.indexError, []) ∧
    WindowsBuildContext.package wctx fs templateLines = (.indexError, []) := by
  constructor
  · simp [AndroidBuildContext.package, androidLibCopyLoop, ha]
  · simp [WindowsBuildContext.package, hw]

/-- Witness for C10 at concrete empty-architecture contexts. -/
theorem claim_c10_witness :
    AndroidBuildContext.package
      ⟨mkBuildContext ["w"] ["b", "android"] "android" "default" [] .release "_" "_" [] [] "1.0.0",
        ["proj"], "mod", "MyLib", ["lib", "platform", "android"]⟩ [] 0 = (.indexError, []) ∧
    WindowsBuildContext.package
      ⟨mkBuildContext ["w"] ["b", "windows"] "windows" "default" [] .release "_" "_" [] [] "1.0.0",
        ["pkg"], "net5.0", "MyPkg", "MyLib", ["lib", "platform", "windows"]⟩ [] [] = (.indexError, []) :=
  claim_c10_empty_architectures_index_error _ _ [] 0 [] rfl rfl

lemma androidLibCopyLoop_ok (ctx : AndroidBuildContext) (fs : FS)
    (l : List Architecture) (h : ∀ a ∈ l, ctx.lib_src a ∈ fs) :
    androidLibCopyLoop ctx fs l =
      (none, l.map fun a => Action.copyFile (ctx.lib_src a) (ctx.lib_dst a)) := by
  induction l with
  | nil => rfl
  | cons a rest ih =>
    have ha : ctx.lib_src a ∈ fs := h a (by simp)
    have ih2 := ih fun x hx => h x (by simp [hx])
    simp [androidLibCopyLoop, ha, ih2]

/-- C6: Android package() with the library and jar sources in place: a
non-zero Gradle exit makes the whole process exit with the distinct status
code 2 after exactly one Gradle invocation (no retry); a zero Gradle exit
with no archive written makes the final copy fail with the file-not-found
error for the archive path, which propagates. -/
theorem claim_c6_android_failure_modes (ctx : AndroidBuildContext) (fs : FS)
    (gradleRet : Nat) (a0 : Architecture) (rest : List Architecture)
    (hA : ctx.architectures = a0 :: rest)
    (hLibs : ∀ a ∈ ctx.architectures, ctx.lib_src a ∈ fs)
    (hJar : ctx.jar_src a0 ∈ fs) :
    (gradleRet ≠ 0 →
      (ctx.package fs gradleRet).1 = .exited 2 ∧
      (ctx.package fs gradleRet).2.countP isSystemAction = 1) ∧
    (gradleRet = 0 → ctx.aar_src ∉ fs →
      (ctx.package fs gradleRet).1 = .fileNotFound ctx.aar_src ∧
      (ctx.package fs gradleRet).2.countP isSystemAction = 1) := by
  rw [hA] at hLibs
  have hloop := androidLibCopyLoop_ok ctx fs (a0 :: rest) hLibs
  have hcount : ((a0 :: rest).map fun a =>
      Action.copyFile (ctx.lib_src a) (ctx.lib_dst a)).countP isSystemAction = 0 := by
    rw [List.countP_eq_zero]
    intro x hx
    simp only [List.mem_map] at hx
    obtain ⟨a, _, rfl⟩ := hx
    simp [isSystemAction]
  constructor
  · intro hg
    rw [AndroidBuildContext.package, hA, hloop]
    simp only [if_pos hJar, if_pos hg]
    refine ⟨by trivial, ?_⟩
    rw [List.countP_append, hcount]
    rfl
  · intro hg hAar
    rw [AndroidBuildContext.package, hA, hloop]
    have hg2 : ¬ gradleRet ≠ 0 := by simp [hg]
    simp only [if_pos hJar, if_neg hg2, if_neg hAar]
    refine ⟨by trivial, ?_⟩
    rw [List.countP_append, hcount]
    rfl

/-- A concrete Android context used by the C6 witness. -/
def ctxAndroid : AndroidBuildContext :=
  ⟨mkBuildContext ["w"] ["b", "android"] "android" "default" [.armv8] .release "_" "_" [] [] "1.0.0",
    ["proj"], "mod", "MyLib", ["lib", "platform", "android"]⟩

/-- File system for the C6 witness: shared library and jar present, no
archive produced by the Gradle build. -/
def fsAndroid : FS :=
  [ctxAndroid.lib_src .armv8, ctxAndroid.jar_src .armv8]

/-- Witness for C6 at a concrete context: Gradle exit 1 gives process exit 2
with a single Gradle invocation; Gradle exit 0 without an archive gives the
propagated file-not-found error for the archive path. -/
theorem claim_c6_witness :
    ((ctxAndroid.package fsAndroid 1).1 = .exited 2 ∧
      (ctxAndroid.package fsAndroid 1).2.countP isSystemAction = 1) ∧
    ((ctxAndroid.package fsAndroid 0).1 = .fileNotFound ctxAndroid.aar_src ∧
      (ctxAndroid.package fsAndroid 0).2.countP isSystemAction = 1) :=
  ⟨(claim_c6_android_failure_modes ctxAndroid fsAndroid 1 .armv8 [] rfl
      (by decide) (by decide)).1 (by decide),
   (claim_c6_android_failure_modes ctxAndroid fsAndroid 0 .armv8 [] rfl
      (by decide) (by decide)).2 rfl (by decide)⟩

lemma not_execute_mem_base_build (ctx : BuildContext) (c : String) (args : List String) :
    Action.execute c args ∉ BuildContext.build ctx := by
  intro hmem
  obtain ⟨a, _, h⟩ := mem_buildLoop ctx.buildDirectory ctx.architectures _ hmem
  exact Action.noConfusion h

lemma not_copyDir_mem_base_build (ctx : BuildContext) (s d : Path) :
    Action.copyDir s d ∉ BuildContext.build ctx := by
  intro hmem
  obtain ⟨a, _, h⟩ := mem_buildLoop ctx.buildDirectory ctx.architectures _ hmem
  exact Action.noConfusion h

/-- C1: a multi-architecture Darwin build copies the reference (first)
architecture's framework bundle into the combined directory named by joining
all architecture names with underscores, and invokes the merge tool with
exactly one input binary path per selected architecture (in list order) and
exactly one output path; the binary path is SDK-conditional — for sdk
"macosx" it ends in `<target>.framework/Versions/A/<target>`, for
"iphoneos"/"iphonesimulator" in `<target>.framework/<target>` directly under
the bundle. With one architecture or none, no merge is invoked. -/
theorem claim_c1_darwin_universal_merge (ctx : DarwinBuildContext) (fs : FS) :
    (1 < ctx.architectures.length →
      (∃ a0 rest, ctx.architectures = a0 :: rest ∧
        Action.copyDir (ctx.framework_src a0)
          (ctx.buildDirectory ++
            [String.intercalate "_" (ctx.architectures.map Architecture.archName)] ++
            ctx.darwinTargetDir ++ [ctx.target_folder, ctx.darwinTarget ++ ".framework"])
          ∈ ctx.build fs) ∧
      Action.execute "lipo"
        ((ctx.architectures.map fun a => pathStr (ctx.lipo_input_path a)) ++
         ["-create", "-output " ++ pathStr ctx.lipo_output]) ∈ ctx.build fs ∧
      (ctx.sdk = "macosx" →
        (∃ p, ctx.lipo_output =
          p ++ [ctx.darwinTarget ++ ".framework", "Versions", "A", ctx.darwinTarget]) ∧
        (∀ a, ∃ p, ctx.lipo_input_path a =
          p ++ [ctx.darwinTarget ++ ".framework", "Versions", "A", ctx.darwinTarget])) ∧
      ((ctx.sdk = "iphoneos" ∨ ctx.sdk = "iphonesimulator") →
        (∃ p, ctx.lipo_output = p ++ [ctx.darwinTarget ++ ".framework", ctx.darwinTarget]) ∧
        (∀ a, ∃ p, ctx.lipo_input_path a =
          p ++ [ctx.darwinTarget ++ ".framework", ctx.darwinTarget]))) ∧
    (ctx.architectures.length ≤ 1 →
      (∀ args, Action.execute "lipo" args ∉ ctx.build fs) ∧
      (∀ s d, Action.copyDir s d ∉ ctx.build fs)) := by
  constructor
  · intro hLen
    have hSplit : ∃ a0 rest, ctx.architectures = a0 :: rest := by
      cases hA : ctx.architectures with
      | nil => rw [hA] at hLen; simp at hLen
      | cons a0 rest => exact ⟨a0, rest, rfl⟩
    obtain ⟨a0, rest, hA⟩ := hSplit
    have hCombine : ctx.lipo_combine =
        [Action.copyDir (ctx.framework_src a0) ctx.framework_dst,
         Action.execute "lipo"
           ((ctx.architectures.map fun a => pathStr (ctx.lipo_input_path a)) ++
            ["-create", "-output " ++ pathStr ctx.lipo_output])] := by
      rw [DarwinBuildContext.lipo_combine, hA]
    have hBuild : ctx.build fs =
        ctx.toBuildContext.build ++ (ctx.lipo_combine ++ ctx.lipo_combine_dsym fs) := by
      rw [DarwinBuildContext.build, if_pos hLen]
    refine ⟨⟨a0, rest, hA, ?_⟩, ?_, ?_, ?_⟩
    · rw [hBuild, hCombine]
      simp [DarwinBuildContext.framework_dst, DarwinBuildContext.lipoDir,
        DarwinBuildContext.combined_architecture, combinedArchitectureOf]
    · rw [hBuild, hCombine]
      simp
    · intro hsdk
      constructor
      · exact ⟨ctx.lipoDir ++ ctx.darwinTargetDir ++ [ctx.target_folder], by
          simp [DarwinBuildContext.lipo_output, if_pos hsdk,
            DarwinBuildContext.framework_dst]⟩
      · intro a
        exact ⟨ctx.buildDirectory ++ [a.archName] ++ ctx.darwinTargetDir ++ [ctx.target_folder], by
          simp [DarwinBuildContext.lipo_input_path, if_pos hsdk]⟩
    · intro hsdk
      have hne : ¬ ctx.sdk = "macosx" := by
        rcases hsdk with h | h <;> rw [h] <;> decide
      constructor
      · exact ⟨ctx.lipoDir ++ ctx.darwinTargetDir ++ [ctx.target_folder], by
          simp [DarwinBuildContext.lipo_output, if_neg hne,
            DarwinBuildContext.framework_dst]⟩
      · intro a
        exact ⟨ctx.buildDirectory ++ [a.archName] ++ ctx.darwinTargetDir ++ [ctx.target_folder], by
          simp [DarwinBuildContext.lipo_input_path, if_neg hne]⟩
  · intro hLen
    have hBuild : ctx.build fs = ctx.toBuildContext.build := by
      rw [DarwinBuildContext.build, if_neg (by omega)]
      simp
    constructor
    · intro args hmem
      rw [hBuild] at hmem
      exact not_execute_mem_base_build ctx.toBuildContext "lipo" args hmem
    · intro s d hmem
      rw [hBuild] at hmem
      exact not_copyDir_mem_base_build ctx.toBuildContext s d hmem

/-- A concrete two-architecture macosx Darwin context. -/
def ctxDarwinMac : DarwinBuildContext :=
  ⟨mkBuildContext ["w"] ["b", "darwin", "macosx"] "macos" "default"
    [.armv8, .x86_64] .release "_" "_" [] [] "1.0.0",
   "macosx", "MyLib", ["lib", "platform", "darwin"]⟩

/-- Witness for C1 at the concrete macosx context: the merge invocation with
one input per architecture and the versioned output path is in the trace. -/
theorem claim_c1_witness :
    Action.execute "lipo"
      ((ctxDarwinMac.architectures.map fun a => pathStr (ctxDarwinMac.lipo_input_path a)) ++
       ["-create", "-output " ++ pathStr ctxDarwinMac.lipo_output])
      ∈ ctxDarwinMac.build [] ∧
    (∃ p, ctxDarwinMac.lipo_output = p ++ ["MyLib.framework", "Versions", "A", "MyLib"]) :=
  ⟨((claim_c1_darwin_universal_merge ctxDarwinMac []).1 (by decide)).2.1,
   (((claim_c1_darwin_universal_merge ctxDarwinMac []).1 (by decide)).2.2.1 rfl).1⟩

/-- C3 counterexample data: the dSYM bundle of the reference architecture of
the concrete macosx context exists. -/
def fsDsymMac : FS := [ctxDarwinMac.dsym_src .armv8]

/-- C3 counterexample: at the concrete macosx context with the dSYM bundle
present, the dSYM merge runs with the DWARF binary at the fixed
`Contents/Resources/DWARF/<target>` sub-path — no invocation in the whole
build trace mentions the `Versions/A` output inside the dSYM bundle that the
claim's SDK-conditional rule demands for sdk "macosx". -/
theorem claim_c3_counterexample :
    ctxDarwinMac.lipo_combine_dsym fsDsymMac =
      [Action.copyDir
        ["b", "darwin", "macosx", "armv8", "lib", "platform", "darwin",
          "Release", "MyLib.framework.dSYM"]
        ["b", "darwin", "macosx", "armv8_x86_64", "lib", "platform", "darwin",
          "Release", "MyLib.framework.dSYM"],
       Action.execute "lipo"
        ["b/darwin/macosx/armv8/lib/platform/darwin/Release/MyLib.framework.dSYM/Contents/Resources/DWARF/MyLib",
         "b/darwin/macosx/x86_64/lib/platform/darwin/Release/MyLib.framework.dSYM/Contents/Resources/DWARF/MyLib",
         "-create",
         "-output b/darwin/macosx/armv8_x86_64/lib/platform/darwin/Release/MyLib.framework.dSYM/Contents/Resources/DWARF/MyLib"]] ∧
    (∀ x ∈ ctxDarwinMac.build fsDsymMac,
      mentionsArg ("-output " ++
        pathStr (ctxDarwinMac.dsym_dst ++ ["Versions", "A", "MyLib"])) x = false) := by
  constructor
  · decide
  · decide

lemma lipo_combine_dsym_mem_build (ctx : DarwinBuildContext) (fs : FS)
    (hLen : 1 < ctx.architectures.length) (x : Action)
    (hx : x ∈ ctx.lipo_combine_dsym fs) : x ∈ ctx.build fs := by
  rw [DarwinBuildContext.build, if_pos hLen]
  simp only [List.mem_append]
  exact Or.inr (Or.inr hx)

/-- C3 (amended): during a multi-architecture Darwin build, if the dSYM
bundle exists alongside the reference architecture's framework output, the
same merge procedure is repeated for the debug-symbol binary payload, with
the DWARF binary at the fixed `Contents/Resources/DWARF/<target>` sub-path
of the dSYM bundle for every SDK (no SDK-conditional `Versions/A` variant);
if no dSYM bundle exists, the dSYM merge is skipped without error. -/
theorem claim_c3_dsym_fixed_dwarf_path (ctx : DarwinBuildContext) (fs : FS)
    (a0 : Architecture) (rest : List Architecture)
    (hA : ctx.architectures = a0 :: rest) (hLen : 1 < ctx.architectures.length) :
    (ctx.dsym_src a0 ∈ fs →
      Action.copyDir (ctx.dsym_src a0) ctx.dsym_dst ∈ ctx.build fs ∧
      Action.execute "lipo"
        ((ctx.architectures.map fun a => pathStr (ctx.dsym_lipo_input_path a)) ++
         ["-create", "-output " ++ pathStr ctx.dsym_lipo_output]) ∈ ctx.build fs ∧
      (∃ p, ctx.dsym_lipo_output =
        p ++ [ctx.darwinTarget ++ ".framework.dSYM",
              "Contents", "Resources", "DWARF", ctx.darwinTarget]) ∧
      (∀ a, ∃ p, ctx.dsym_lipo_input_path a =
        p ++ [ctx.darwinTarget ++ ".framework.dSYM",
              "Contents", "Resources", "DWARF", ctx.darwinTarget])) ∧
    (ctx.dsym_src a0 ∉ fs → ctx.lipo_combine_dsym fs = []) := by
  constructor
  · intro hDsym
    have hTrace : ctx.lipo_combine_dsym fs =
        [Action.copyDir (ctx.dsym_src a0) ctx.dsym_dst,
         Action.execute "lipo"
           ((ctx.architectures.map fun a => pathStr (ctx.dsym_lipo_input_path a)) ++
            ["-create", "-output " ++ pathStr ctx.dsym_lipo_output])] := by
      rw [DarwinBuildContext.lipo_combine_dsym, hA]
      simp only [if_pos hDsym]
    refine ⟨?_, ?_, ?_, ?_⟩
    · exact lipo_combine_dsym_mem_build ctx fs hLen _ (by rw [hTrace]; simp)
    · exact lipo_combine_dsym_mem_build ctx fs hLen _ (by rw [hTrace]; simp)
    · exact ⟨ctx.lipoDir ++ ctx.darwinTargetDir ++ [ctx.target_folder], by
        simp [DarwinBuildContext.dsym_lipo_output, DarwinBuildContext.dsym_dst]⟩
    · intro a
      exact ⟨ctx.buildDirectory ++ [a.archName] ++ ctx.darwinTargetDir ++ [ctx.target_folder], by
        simp [DarwinBuildContext.dsym_lipo_input_path]⟩
  · intro hDsym
    rw [DarwinBuildContext.lipo_combine_dsym, hA]
    simp only [if_neg hDsym]

/-- Witness for C3 (amended) at the concrete macosx context: both halves —
with the dSYM present the merge actions are in the trace at the fixed DWARF
sub-path, and with an empty file system the dSYM merge contributes nothing. -/
theorem claim_c3_witness :
    Action.copyDir (ctxDarwinMac.dsym_src .armv8) ctxDarwinMac.dsym_dst
      ∈ ctxDarwinMac.build fsDsymMac ∧
    ctxDarwinMac.lipo_combine_dsym [] = [] :=
  ⟨((claim_c3_dsym_fixed_dwarf_path ctxDarwinMac fsDsymMac .armv8 [.x86_64] rfl
      (by decide)).1 (by decide)).1,
   (claim_c3_dsym_fixed_dwarf_path ctxDarwinMac [] .armv8 [.x86_64] rfl
      (by decide)).2 (by decide)⟩

lemma sum_map_ite_eq_countP {α : Type} (p : α → Bool) (l : List α) :
    (l.map fun a => if p a then 1 else 0).sum = l.countP p := by
  induction l with
  | nil => rfl
  | cons a rest ih => simp [List.countP_cons, ih, Nat.add_comm]

lemma countP_framework_argsFor (target : String) (targetDir : Path) (fs : FS) (e : XcEntry) :
    (xcframeworkArgsFor target targetDir fs e).countP XcArg.isFramework =
      (if e.architectures.isSome then 1 else 0) := by
  rw [xcframeworkArgsFor]
  cases e.architectures with
  | none => rfl
  | some archs =>
    simp only [Option.isSome_some, if_true]
    by_cases h : e.framework_base archs targetDir ++ [target ++ ".framework.dSYM"] ∈ fs
    · simp [if_pos h, List.countP_cons, XcArg.isFramework]
    · simp [if_neg h, List.countP_cons, XcArg.isFramework]

lemma countP_debugSymbols_argsFor (target : String) (targetDir : Path) (fs : FS) (e : XcEntry) :
    (xcframeworkArgsFor target targetDir fs e).countP XcArg.isDebugSymbols =
      (if e.hasDsym target targetDir fs then 1 else 0) := by
  rw [xcframeworkArgsFor, XcEntry.hasDsym]
  cases e.architectures with
  | none => rfl
  | some archs =>
    by_cases h : e.framework_base archs targetDir ++ [target ++ ".framework.dSYM"] ∈ fs
    · simp [if_pos h, List.countP_cons, XcArg.isDebugSymbols]
    · simp [if_neg h, List.countP_cons, XcArg.isDebugSymbols]

lemma countP_flatten_argsFor (p : XcArg → Bool) (f : XcEntry → Nat)
    (target : String) (targetDir : Path) (fs : FS)
    (hf : ∀ e, (xcframeworkArgsFor target targetDir fs e).countP p = f e) (ctxs : List XcEntry) :
    (List.flatten (ctxs.map (xcframeworkArgsFor target targetDir fs))).countP p =
      (ctxs.map f).sum := by
  induction ctxs with
  | nil => rfl
  | cons e rest ih =>
    simp only [List.map_cons, List.flatten_cons, List.countP_append, List.sum_cons, ih, hf e]

/-- C2 counterexample: a single build context whose architecture selection is
present but empty (reachable from the CLI by passing the platform flag with
zero architecture tokens) still contributes a `-framework` argument, so the
assembly invocation receives one `-framework` argument although no context in
the list has a non-empty architecture selection — the claim predicts none. -/
theorem claim_c2_counterexample :
    ((xcframeworkArguments [⟨some [], ["b", "darwin", "darwin"], "macosx", .release⟩]
        "MyLib" ["lib", "platform", "darwin"] ["b"] []).countP XcArg.isFramework) = 1 ∧
    (([⟨some [], ["b", "darwin", "darwin"], "macosx", .release⟩] : List XcEntry).countP
      (fun e => decide (e.architectures ≠ none ∧ e.architectures ≠ some []))) = 0 ∧
    create_xcframework [⟨some [], ["b", "darwin", "darwin"], "macosx", .release⟩]
        "MyLib" ["lib", "platform", "darwin"] ["b"] [] =
      [Action.cleanDir ["b", "darwin", "package", "MyLib.xcframework"],
       Action.execute "xcodebuild"
         ((xcframeworkArguments [⟨some [], ["b", "darwin", "darwin"], "macosx", .release⟩]
            "MyLib" ["lib", "platform", "darwin"] ["b"] []).map XcArg.render)] := by
  refine ⟨by decide, by decide, rfl⟩

/-- C2 (amended): the static Darwin package step invokes the
XCFramework-assembly tool exactly once, passing exactly one
`-framework <path>` argument per build context in the list whose architecture
selection is present (not None) — an absent selection contributes no
argument, but an empty selection still contributes one — plus exactly one
`-debug-symbols <path>` argument for each present-selection context whose
combined output contains a dSYM bundle and none otherwise, and the output
path is recursively removed before the tool is invoked. -/
theorem claim_c2_xcframework_arguments (ctxs : List XcEntry) (target : String)
    (targetDir : Path) (buildDirectory : Path) (fs : FS) :
    create_xcframework ctxs target targetDir buildDirectory fs =
      [Action.cleanDir (xcframeworkOutputDir buildDirectory target),
       Action.execute "xcodebuild"
         ((xcframeworkArguments ctxs target targetDir buildDirectory fs).map XcArg.render)] ∧
    ((xcframeworkArguments ctxs target targetDir buildDirectory fs).countP XcArg.isFramework) =
      ctxs.countP (fun e => e.architectures.isSome) ∧
    ((xcframeworkArguments ctxs target targetDir buildDirectory fs).countP XcArg.isDebugSymbols) =
      ctxs.countP (fun e => e.hasDsym target targetDir fs) := by
  refine ⟨rfl, ?_, ?_⟩
  · rw [xcframeworkArguments, List.countP_cons, List.countP_cons,
      countP_flatten_argsFor XcArg.isFramework
        (fun e => if e.architectures.isSome then 1 else 0) target targetDir fs
        (countP_framework_argsFor target targetDir fs) ctxs]
    simp [XcArg.isFramework, sum_map_ite_eq_countP]
  · rw [xcframeworkArguments, List.countP_cons, List.countP_cons,
      countP_flatten_argsFor XcArg.isDebugSymbols
        (fun e => if e.hasDsym target targetDir fs then 1 else 0) target targetDir fs
        (countP_debugSymbols_argsFor target targetDir fs) ctxs]
    simp [XcArg.isDebugSymbols, sum_map_ite_eq_countP]

lemma windowsCopyLoop_ok (ctx : WindowsBuildContext) (fs : FS) (l : List Architecture)
    (h : ∀ a ∈ l, ctx.dll_src a ∈ fs ∧ ctx.ijwhost_src a ∈ fs) :
    windowsCopyLoop ctx fs l =
      (none, List.flatten (l.map fun a =>
        [Action.copyFile (ctx.dll_src a) (ctx.runtime_dest a ++ [ctx.windowsTarget ++ ".dll"]),
         Action.copyFile (ctx.ijwhost_src a) (ctx.runtime_dest a ++ ["Ijwhost.dll"])])) := by
  induction l with
  | nil => rfl
  | cons a rest ih =>
    have ha := h a (by simp)
    have ih2 := ih fun x hx => h x (by simp [hx])
    simp [windowsCopyLoop, ha.1, ha.2, ih2]

/-- A concrete single-architecture Windows context (version 1.0.0, release). -/
def ctxWin : WindowsBuildContext :=
  ⟨mkBuildContext ["w"] ["b", "windows"] "windows" "default" [.x86_64] .release "_" "_" [] [] "1.0.0",
    ["pkg"], "net5.0", "MyPkg", "MyLib", ["lib", "platform", "windows"]⟩

/-- File system for the Windows runs: both dlls present and the nupkg that
the packaging tool produces. -/
def fsWin : FS :=
  [WindowsBuildContext.dll_src ctxWin .x86_64,
   WindowsBuildContext.ijwhost_src ctxWin .x86_64,
   ["pkg", "MyPkg.1.0.0.nupkg"]]

/-- A nuspec template with a single dependency group for net6.0. -/
def tGroup : List String :=
  ["<dependencies>", "<group targetFramework=\"net6.0\" />", "</dependencies>"]

/-- A nuspec template without any group element. -/
def tNoGroup : List String := ["<dependencies>", "</dependencies>"]

/-- C5 counterexample: with the constructor-supplied moniker "net5.0" and a
template whose only dependency group says net6.0, the reference-assembly slot
used is `lib/net5.0` — not the template's "net6.0" — and a template with no
group element completes successfully instead of failing. -/
theorem claim_c5_counterexample :
    (WindowsBuildContext.package ctxWin fsWin tGroup).2.head? =
      some (Action.copyFile (WindowsBuildContext.dll_src ctxWin .x86_64)
        ["pkg", "lib", "net5.0", "MyLib.dll"]) ∧
    ("net5.0" : String) ≠ "net6.0" ∧
    (WindowsBuildContext.package ctxWin fsWin tNoGroup).1 = .ok ∧
    (WindowsBuildContext.package ctxWin fsWin tGroup).1 =
      (WindowsBuildContext.package ctxWin fsWin tNoGroup).1 := by
  refine ⟨by decide, by decide, by decide, by decide⟩

/-- C5 (amended): the target-framework-moniker of the Windows package layout
is the constructor-supplied nupkg_net_version field: the reference copy goes
to `lib/<nupkg_net_version>` whatever the template contains, the nuspec
template's content never influences the outcome (it is only subject to the
version placeholder substitution), and a template without a group element
does not make the operation fail. -/
theorem claim_c5_tfm_is_constructor_param (ctx : WindowsBuildContext) (fs : FS)
    (t1 t2 : List String) (a0 : Architecture) (rest : List Architecture)
    (hA : ctx.architectures = a0 :: rest) (h0 : ctx.dll_src a0 ∈ fs) :
    (ctx.package fs t1).1 = (ctx.package fs t2).1 ∧
    (∃ tr, (ctx.package fs t1).2 =
      Action.copyFile (ctx.dll_src a0)
        (ctx.nupkgDir ++ ["lib", ctx.nupkgNetVersion, ctx.windowsTarget ++ ".dll"]) :: tr) := by
  constructor
  · rw [WindowsBuildContext.package, WindowsBuildContext.package, hA]
    simp only [if_pos h0]
    rcases hW : windowsCopyLoop ctx fs (a0 :: rest) with ⟨o, tr⟩
    cases o with
    | some p => rfl
    | none =>
      by_cases hN : ctx.nupkgDir ++ [ctx.nupkgName ++ "." ++ ctx.version ++ ".nupkg"] ∈ fs
      · simp only [if_pos hN]
      · simp only [if_neg hN]
  · rw [WindowsBuildContext.package, hA]
    simp only [if_pos h0]
    rcases hW : windowsCopyLoop ctx fs (a0 :: rest) with ⟨o, tr⟩
    cases o with
    | some p => exact ⟨tr, rfl⟩
    | none =>
      by_cases hN : ctx.nupkgDir ++ [ctx.nupkgName ++ "." ++ ctx.version ++ ".nupkg"] ∈ fs
      · simp only [if_pos hN]
        exact ⟨_, rfl⟩
      · simp only [if_neg hN]
        exact ⟨_, rfl⟩

/-- Witness for C5 (amended) at the concrete context: the outcome is the
same for the group and the group-less template, and the first action copies
the reference dll into the constructor-moniker slot. -/
theorem claim_c5_witness :
    (WindowsBuildContext.package ctxWin fsWin tGroup).1 =
      (WindowsBuildContext.package ctxWin fsWin tNoGroup).1 ∧
    (∃ tr, (WindowsBuildContext.package ctxWin fsWin tGroup).2 =
      Action.copyFile (WindowsBuildContext.dll_src ctxWin .x86_64)
        (["pkg"] ++ ["lib", "net5.0", "MyLib.dll"]) :: tr) :=
  claim_c5_tfm_is_constructor_param ctxWin fsWin tGroup tNoGroup .x86_64 [] rfl (by decide)

/-- A second concrete Windows context: different version and configuration. -/
def ctxWinB : WindowsBuildContext :=
  ⟨mkBuildContext ["w"] ["b", "windows"] "windows" "default" [.x86_64] .debug "_" "_" [] [] "2.0.0",
    ["pkg"], "net5.0", "MyPkg", "MyLib", ["lib", "platform", "windows"]⟩

/-- File system for the second Windows run. -/
def fsWinB : FS :=
  [WindowsBuildContext.dll_src ctxWinB .x86_64,
   WindowsBuildContext.ijwhost_src ctxWinB .x86_64,
   ["pkg", "MyPkg.2.0.0.nupkg"]]

/-- The fsWin file system with a debug-info (pdb) file added next to the
compiled outputs. -/
def fsWinPdb : FS :=
  fsWin ++ [["b", "windows", "x86_64", "lib", "platform", "windows", "Release", "MyLib.pdb"]]

/-- C7 counterexample: the Windows packaging run copies no directory (only
single dll files, not the architecture's full output directory), behaves
identically whether or not a debug-info file exists (no symbol-packaging
detection), and two contexts differing in version and configuration invoke
the identical plain `nuget pack MyPkg.nuspec` command — no configuration or
version properties are passed. -/
theorem claim_c7_counterexample :
    (∀ x ∈ (WindowsBuildContext.package ctxWin fsWin tGroup).2, isCopyDir x = false) ∧
    WindowsBuildContext.package ctxWin fsWinPdb tGroup =
      WindowsBuildContext.package ctxWin fsWin tGroup ∧
    Action.system "nuget pack MyPkg.nuspec" ∈ (WindowsBuildContext.package ctxWin fsWin tGroup).2 ∧
    Action.system "nuget pack MyPkg.nuspec" ∈ (WindowsBuildContext.package ctxWinB fsWinB tGroup).2 := by
  refine ⟨by decide, by decide, by decide, by decide⟩

lemma mem_flatten_pair_copies {α : Type} (f g f2 g2 : α → Path) (l : List α) (x : Action)
    (hx : x ∈ List.flatten (l.map fun a =>
      [Action.copyFile (f a) (g a), Action.copyFile (f2 a) (g2 a)])) :
    ∃ a ∈ l, x = Action.copyFile (f a) (g a) ∨ x = Action.copyFile (f2 a) (g2 a) := by
  rw [List.mem_flatten] at hx
  obtain ⟨lst, hl, hxl⟩ := hx
  rw [List.mem_map] at hl
  obtain ⟨a, ha, rfl⟩ := hl
  simp only [List.mem_cons, List.mem_singleton] at hxl
  rcases hxl with h | h | h
  · exact ⟨a, ha, Or.inl h⟩
  · exact ⟨a, ha, Or.inr h⟩
  · cases h

/-- C7 (amended): for every selected architecture, package() copies the
architecture's target dll and the Ijwhost.dll file (single files, not the
full output directory) into the runtime-identifier-keyed subtree
`runtimes/<rid>/lib/<tfm>` of the NuGet layout; it performs no debug-info
detection and no directory copy; the external packaging tool is invoked
exactly once with the plain command `nuget pack <name>.nuspec` (no
configuration or version properties); the version enters only through the
nuspec template substitution and the copied output file name. -/
theorem claim_c7_windows_package_shape (ctx : WindowsBuildContext) (fs : FS)
    (t : List String) (a0 : Architecture) (rest : List Architecture)
    (hA : ctx.architectures = a0 :: rest)
    (hSrcs : ∀ a ∈ ctx.architectures, ctx.dll_src a ∈ fs ∧ ctx.ijwhost_src a ∈ fs)
    (hPkg : ctx.nupkgDir ++ [ctx.nupkgName ++ "." ++ ctx.version ++ ".nupkg"] ∈ fs) :
    (ctx.package fs t).1 = .ok ∧
    (∀ a ∈ ctx.architectures,
      Action.copyFile (ctx.dll_src a)
        (ctx.nupkgDir ++ ["runtimes", a.value.windows, "lib", ctx.nupkgNetVersion] ++
          [ctx.windowsTarget ++ ".dll"]) ∈ (ctx.package fs t).2 ∧
      Action.copyFile (ctx.ijwhost_src a)
        (ctx.nupkgDir ++ ["runtimes", a.value.windows, "lib", ctx.nupkgNetVersion] ++
          ["Ijwhost.dll"]) ∈ (ctx.package fs t).2) ∧
    ((ctx.package fs t).2.countP isSystemAction = 1) ∧
    Action.system ("nuget pack " ++ ctx.nupkgName ++ ".nuspec") ∈ (ctx.package fs t).2 ∧
    (∀ x ∈ (ctx.package fs t).2, isCopyDir x = false) ∧
    Action.writeNuspec (ctx.nupkgDir ++ [ctx.nupkgName ++ ".nuspec"])
      (configure_nuspec_lines ctx.version t) ∈ (ctx.package fs t).2 := by
  rw [hA] at hSrcs
  have h0 : ctx.dll_src a0 ∈ fs := (hSrcs a0 (by simp)).1
  have hloop := windowsCopyLoop_ok ctx fs (a0 :: rest) hSrcs
  have hTr : ctx.package fs t = (PyOutcome.ok,
      (Action.copyFile (ctx.dll_src a0)
          (ctx.nupkgDir ++ ["lib", ctx.nupkgNetVersion, ctx.windowsTarget ++ ".dll"]) ::
        List.flatten ((a0 :: rest).map fun a =>
          [Action.copyFile (ctx.dll_src a)
            (ctx.nupkgDir ++ ["runtimes", a.value.windows, "lib", ctx.nupkgNetVersion] ++
              [ctx.windowsTarget ++ ".dll"]),
           Action.copyFile (ctx.ijwhost_src a)
            (ctx.nupkgDir ++ ["runtimes", a.value.windows, "lib", ctx.nupkgNetVersion] ++
              ["Ijwhost.dll"])])) ++
       [Action.writeNuspec (ctx.nupkgDir ++ [ctx.nupkgName ++ ".nuspec"])
          (configure_nuspec_lines ctx.version t),
        Action.system ("nuget pack " ++ ctx.nupkgName ++ ".nuspec")] ++
       [Action.copyFile (ctx.nupkgDir ++ [ctx.nupkgName ++ "." ++ ctx.version ++ ".nupkg"])
          (ctx.buildDirectory ++ [ctx.nupkgName ++ "." ++ ctx.version ++ ".nupkg"])]) := by
    rw [WindowsBuildContext.package, hA]
    simp only [if_pos h0, hloop, if_pos hPkg, WindowsBuildContext.runtime_dest]
  refine ⟨?_, ?_, ?_, ?_, ?_, ?_⟩
  · rw [hTr]
  · intro a ha
    rw [hA] at ha
    have hmem : [Action.copyFile (ctx.dll_src a)
          (ctx.nupkgDir ++ ["runtimes", a.value.windows, "lib", ctx.nupkgNetVersion] ++
            [ctx.windowsTarget ++ ".dll"]),
        Action.copyFile (ctx.ijwhost_src a)
          (ctx.nupkgDir ++ ["runtimes", a.value.windows, "lib", ctx.nupkgNetVersion] ++
            ["Ijwhost.dll"])] ∈
        (a0 :: rest).map fun a =>
          [Action.copyFile (ctx.dll_src a)
            (ctx.nupkgDir ++ ["runtimes", a.value.windows, "lib", ctx.nupkgNetVersion] ++
              [ctx.windowsTarget ++ ".dll"]),
           Action.copyFile (ctx.ijwhost_src a)
            (ctx.nupkgDir ++ ["runtimes", a.value.windows, "lib", ctx.nupkgNetVersion] ++
              ["Ijwhost.dll"])] :=
      List.mem_map_of_mem _ ha
    constructor
    · rw [hTr]
      exact List.mem_append_left _ (List.mem_append_left _
        (List.mem_cons_of_mem _ (List.mem_flatten.mpr ⟨_, hmem, by simp⟩)))
    · rw [hTr]
      exact List.mem_append_left _ (List.mem_append_left _
        (List.mem_cons_of_mem _ (List.mem_flatten.mpr ⟨_, hmem, by simp⟩)))
  · rw [hTr]
    have hzero : (List.flatten ((a0 :: rest).map fun a =>
        [Action.copyFile (ctx.dll_src a)
          (ctx.nupkgDir ++ ["runtimes", a.value.windows, "lib", ctx.nupkgNetVersion] ++
            [ctx.windowsTarget ++ ".dll"]),
         Action.copyFile (ctx.ijwhost_src a)
          (ctx.nupkgDir ++ ["runtimes", a.value.windows, "lib", ctx.nupkgNetVersion] ++
            ["Ijwhost.dll"])])).countP isSystemAction = 0 := by
      rw [List.countP_eq_zero]
      intro x hx
      obtain ⟨a, _, h | h⟩ := mem_flatten_pair_copies _ _ _ _ _ x hx <;> subst h <;> simp [isSystemAction]
    rw [List.countP_append, List.countP_append, List.countP_cons, hzero]
    rfl
  · rw [hTr]
    exact List.mem_append_left _ (List.mem_append_right _ (by simp))
  · intro x hx
    rw [hTr] at hx
    rcases List.mem_append.mp hx with hx1 | hx3
    · rcases List.mem_append.mp hx1 with hx11 | hx12
      · rcases List.mem_cons.mp hx11 with h | hflat
        · subst h; rfl
        · obtain ⟨a, _, h | h⟩ := mem_flatten_pair_copies _ _ _ _ _ x hflat <;> subst h <;> rfl
      · rcases List.mem_cons.mp hx12 with h | h
        · subst h; rfl
        · rcases List.mem_cons.mp h with h2 | h2
          · subst h2; rfl
          · cases h2
    · rcases List.mem_cons.mp hx3 with h | h
      · subst h; rfl
      · cases h
  · rw [hTr]
    exact List.mem_append_left _ (List.mem_append_right _ (by simp))

/-- Witness for C7 (amended) at the concrete context: success outcome, one
packaging-tool invocation, the plain command present in the trace. -/
theorem claim_c7_witness :
    (WindowsBuildContext.package ctxWin fsWin tGroup).1 = .ok ∧
    (WindowsBuildContext.package ctxWin fsWin tGroup).2.countP isSystemAction = 1 ∧
    Action.system "nuget pack MyPkg.nuspec" ∈ (WindowsBuildContext.package ctxWin fsWin tGroup).2 :=
  ⟨(claim_c7_windows_package_shape ctxWin fsWin tGroup .x86_64 [] rfl (by decide) (by decide)).1,
   (claim_c7_windows_package_shape ctxWin fsWin tGroup .x86_64 [] rfl (by decide) (by decide)).2.2.1,
   (claim_c7_windows_package_shape ctxWin fsWin tGroup .x86_64 [] rfl (by decide) (by decide)).2.2.2.1⟩

end DjinniBuild
